import Mathlib

/-!
Verification of the build-option model, cache-key derivation and
binary-acquisition state machine of the `ocs` shell-compilation orchestrator.

The definitions below are a shallow embedding of the Python sources:

* `ocs/build_options.py` — option schema (`add_parser_opts`), the validity
  predicate `are_args_valid`, the identifier derivation `compute_shell_type` /
  `compute_shell_name`, and the randomized generator `gen_rnd_cfgs`;
* `ocs/spidermonkey/hatch.py` — the acquisition state machine `obtain_shell`,
  the compile step `sm_compile` and the post-build checker `verify_binary`;
* `ocs/compile_shell.py` — the legacy generation of the same logic, whose
  `configure_binary` reads the `enableMoreDeterministic` attribute.

Ambient host facts (`platform.system()`, `platform.machine()`,
`platform.release()`) are injected as explicit parameters, and external
process invocations (hg, configure, make, the compiled binary itself) are
represented by oracles for their observable outcomes together with an explicit
trace of the external actions performed.
-/

/-- The build-option record produced by the argparse parser in
`ocs/build_options.py` (`add_parser_opts`).  One field per parser `dest`;
every boolean flag defaults to `False` in the source.  `build_options_str`
and `enableRandom` are the two extra attributes `parse_shell_opts` /
`gen_rnd_cfgs` attach to the namespace (`repo_dir` is path-valued glue and is
not modelled). -/
structure BuildOptions where
  enable32 : Bool := false
  enableDbg : Bool := false
  disableDbg : Bool := false
  enableOpt : Bool := false
  disableOpt : Bool := false
  disableProfiling : Bool := false
  enableAddressSanitizer : Bool := false
  enableValgrind : Bool := false
  runWithVg : Bool := false
  enableOomBreakpoint : Bool := false
  enableWithoutIntlApi : Bool := false
  enableSimulatorArm32 : Bool := false
  enableSimulatorArm64 : Bool := false
  enableRandom : Bool := false
  build_options_str : String := ""
deriving DecidableEq, Repr

/-- Host facts read ambiently by the source (`platform.system()`,
`platform.machine()`, `platform.release()`), injected explicitly. -/
structure Host where
  system : String
  machine : String
  release : String
deriving DecidableEq, Repr

/-- Python's `str.lower()` restricted to ASCII, which covers every host
string the source feeds it (`platform.system()`, `platform.machine()`). -/
def str_lower (s : String) : String :=
  ⟨s.data.map Char.toLower⟩

/-- Python's `needle in hay` substring test. -/
def contains_str (needle hay : String) : Bool :=
  decide (needle.data <:+: hay.data)

/-- `"-".join(file_name)` rendered at the character level. -/
def charJoin : List String → List Char
  | [] => []
  | s :: rest =>
    match rest with
    | [] => s.data
    | _ :: _ => s.data ++ '-' :: charJoin rest

/-- Python's `"-".join(file_name)`. -/
def dashJoin (l : List String) : String :=
  ⟨charJoin l⟩

/-- The variable middle section of the `file_name` list built by
`compute_shell_type` (`build_options.py` lines 187-206): one marker per
non-default flag, in the source's append order, with the word-width token
always present. -/
def varTokens (dbg dopt e32 dprof asan vg oom intl sim32 sim64 : Bool) :
    List String :=
  (if dbg then ["dbg"] else [])
  ++ (if dopt then ["optDisabled"] else [])
  ++ [if e32 then "32" else "64"]
  ++ (if dprof then ["profDisabled"] else [])
  ++ (if asan then ["asan"] else [])
  ++ (if vg then ["vg"] else [])
  ++ (if oom then ["oombp"] else [])
  ++ (if intl then ["intlDisabled"] else [])
  ++ (if sim32 then ["armsim32"] else [])
  ++ (if sim64 then ["armsim64"] else [])

/-- `compute_shell_type` (`build_options.py` lines 181-211): `"js"`, the
flag markers, then `platform.system().lower()` and
`platform.machine().lower()`, joined with `"-"`. -/
def compute_shell_type (o : BuildOptions) (system machine : String) : String :=
  dashJoin (["js"]
    ++ varTokens o.enableDbg o.disableOpt o.enable32 o.disableProfiling
      o.enableAddressSanitizer o.enableValgrind o.enableOomBreakpoint
      o.enableWithoutIntlApi o.enableSimulatorArm32 o.enableSimulatorArm64
    ++ [str_lower system, str_lower machine])

/-- `compute_shell_name` (`build_options.py` lines 214-216):
`f"{compute_shell_type(build_options)}-{build_rev}"`. -/
def compute_shell_name (o : BuildOptions) (system machine : String)
    (build_rev : String) : String :=
  compute_shell_type o system machine ++ "-" ++ build_rev

/-- One recognized flag token of the parser schema (`add_parser_opts`),
applied to the accumulating namespace; unrecognized tokens are a hard
argparse error. -/
def apply_flag (o : BuildOptions) : String → Option BuildOptions
  | "--32" => some { o with enable32 := true }
  | "--enable-debug" => some { o with enableDbg := true }
  | "--disable-debug" => some { o with disableDbg := true }
  | "--enable-optimize" => some { o with enableOpt := true }
  | "--disable-optimize" => some { o with disableOpt := true }
  | "--disable-profiling" => some { o with disableProfiling := true }
  | "--enable-address-sanitizer" => some { o with enableAddressSanitizer := true }
  | "--enable-valgrind" => some { o with enableValgrind := true }
  | "--run-with-valgrind" => some { o with runWithVg := true }
  | "--enable-oom-breakpoint" => some { o with enableOomBreakpoint := true }
  | "--without-intl-api" => some { o with enableWithoutIntlApi := true }
  | "--enable-simulator=arm" => some { o with enableSimulatorArm32 := true }
  | "--enable-simulator=arm64" => some { o with enableSimulatorArm64 := true }
  | _ => none

/-- `parser.parse_args` on an already whitespace-tokenized flag string: all
boolean dests start at their `False` defaults and each recognized token sets
its dest. -/
def parse_flag_tokens : List String → Option BuildOptions :=
  go {}
where
  go (o : BuildOptions) : List String → Option BuildOptions
    | [] => some o
    | tok :: rest =>
      match apply_flag o tok with
      | none => none
      | some o2 => go o2 rest

/-- The guard/reason pairs of `are_args_valid` (`build_options.py` lines
226-282), in source order.  The nested `if` blocks of the source (the ASan
and simulator sections) are flattened by conjoining the enclosing guard.
The Valgrind rule is the source's permanently-disabled `return False` (its
real logic is commented out). -/
def validity_rules (args : BuildOptions) (host : Host) : List (Bool × String) :=
  [(args.enableDbg && args.disableDbg,
    "Making a debug, non-debug build would be contradictory."),
   (args.enableOpt && args.disableOpt,
    "Making an optimized, non-optimized build would be contradictory."),
   (!args.enableDbg && args.disableOpt,
    "Making a non-debug, non-optimized build would be kind of silly."),
   (host.system == "Darwin" && args.enable32,
    "We are no longer going to ship 32-bit Mac binaries."),
   (host.machine == "aarch64" && args.enable32,
    "ARM64 systems cannot seem to compile 32-bit binaries properly."),
   (contains_str "Microsoft" host.release && args.enable32,
    "WSL does not seem to support 32-bit Linux binaries yet."),
   (args.enableValgrind,
    "FIXME: We need to set LD_LIBRARY_PATH first, else Valgrind segfaults."),
   (args.runWithVg && !args.enableValgrind,
    "--run-with-valgrind needs --enable-valgrind."),
   (args.enableAddressSanitizer && args.enable32,
    "32-bit ASan builds fail on 18.04 due to https://github.com/google/sanitizers/issues/954."),
   (args.enableAddressSanitizer
      && (host.system == "Linux" && contains_str "Microsoft" host.release),
    "Linux ASan builds cannot yet work in WSL though there may be workarounds."),
   (args.enableAddressSanitizer && (host.system == "Windows" && args.enable32),
    "ASan is explicitly not supported in 32-bit Windows builds."),
   ((args.enableSimulatorArm32 || args.enableSimulatorArm64)
      && (host.system == "Windows" && args.enableSimulatorArm32),
    "Nobody runs the ARM32 simulators on Windows."),
   ((args.enableSimulatorArm32 || args.enableSimulatorArm64)
      && (host.system == "Windows" && args.enableSimulatorArm64),
    "Nobody runs the ARM64 simulators on Windows."),
   ((args.enableSimulatorArm32 || args.enableSimulatorArm64)
      && (host.system == "Linux" && host.machine == "aarch64"
        && args.enableSimulatorArm32),
    "Nobody runs the ARM32 simulators on ARM64 Linux."),
   ((args.enableSimulatorArm32 || args.enableSimulatorArm64)
      && (host.system == "Linux" && host.machine == "aarch64"
        && args.enableSimulatorArm64),
    "Nobody runs the ARM64 simulators on ARM64 Linux."),
   ((args.enableSimulatorArm32 || args.enableSimulatorArm64)
      && (args.enableSimulatorArm32 && !args.enable32),
    "The 32-bit ARM simulator builds are only for 32-bit binaries."),
   ((args.enableSimulatorArm32 || args.enableSimulatorArm64)
      && (args.enableSimulatorArm64 && args.enable32),
    "The 64-bit ARM simulator builds are only for 64-bit binaries.")]

/-- `are_args_valid` (`build_options.py` lines 219-284): evaluate the rules
top to bottom with an early `return` on the first whose guard holds (modelled
by `List.find?` on the ordered rule list), yielding `False` with that rule's
human-readable reason; fall through to `(True, "")`. -/
def are_args_valid (args : BuildOptions) (host : Host) : Bool × String :=
  match (validity_rules args host).find? (fun rule => rule.1) with
  | some rule => (false, rule.2)
  | none => (true, "")

/-- `gen_rnd_cfgs` (`build_options.py` lines 287-302), with the random draws
made explicit: each element of `draws` is one loop iteration's candidate —
the namespace parsed from `rnd_args` (the randomized subset, possibly with
`--run-with-valgrind` appended) paired with `" ".join(rnd_args)`.  The loop
returns the first candidate passing `are_args_valid`, after attaching
`build_options_str` and forcing `enableRandom`; an empty draw list models a
run cut off before any candidate passed. -/
def gen_rnd_cfgs (host : Host) : List (BuildOptions × String) → Option BuildOptions
  | [] => none
  | (cand, joined) :: rest =>
    if (are_args_valid cand host).1 then
      some { cand with build_options_str := joined, enableRandom := true }
    else
      gen_rnd_cfgs host rest

/-- Strip one expected marker token off the front of a token list, reporting
whether it was present. -/
def stripTok (tok : String) : List String → Bool × List String
  | [] => (false, [])
  | t :: rest => if t = tok then (true, rest) else (false, t :: rest)

/-- Read the ten flag markers back off a `varTokens` list, in the fixed
field order of `compute_shell_type`. -/
def decodeVar (l : List String) : List Bool :=
  let s1 := stripTok "dbg" l
  let s2 := stripTok "optDisabled" s1.2
  let s3 := stripTok "32" s2.2
  let s4 := stripTok "64" s3.2
  let s5 := stripTok "profDisabled" s4.2
  let s6 := stripTok "asan" s5.2
  let s7 := stripTok "vg" s6.2
  let s8 := stripTok "oombp" s7.2
  let s9 := stripTok "intlDisabled" s8.2
  let s10 := stripTok "armsim32" s9.2
  let s11 := stripTok "armsim64" s10.2
  [s1.1, s2.1, s3.1, s5.1, s6.1, s7.1, s8.1, s9.1, s10.1, s11.1]

/-- Observable outcome of one `make` invocation in `sm_compile`
(`spidermonkey/hatch.py` lines 496-531): the captured process exit code
(`subprocess.run(..., check=False)`, never consulted by the source), whether
`shell.shell_compiled_path.is_file()` holds afterwards, and whether the
captured output contains one of the two known compiler out-of-memory
messages. -/
structure MakeRun where
  exitCode : Int
  binaryExists : Bool
  oomInOutput : Bool
deriving DecidableEq, Repr

/-- What `sm_compile` did: whether the binary was copied into the cache
entry, whether the `.busted` failure marker was written, whether `OSError`
was raised, and whether the one OOM retry ran. -/
structure SmCompileOutcome where
  copiedToCache : Bool
  bustedWritten : Bool
  raisedOSError : Bool
  retried : Bool
deriving DecidableEq, Repr

/-- Whether the compiled binary exists after `sm_compile`'s possibly-retried
`make`: the first run's result, or — when the first run produced no binary,
the host is Linux/Darwin and the output matched an OOM message — the retry
run's result. -/
def sm_binary_after (isLinuxOrDarwin : Bool) (run1 run2 : MakeRun) : Bool :=
  if run1.binaryExists then true
  else if isLinuxOrDarwin && run1.oomInOutput then run2.binaryExists
  else false

/-- `sm_compile` (`spidermonkey/hatch.py` lines 489-580).  `make` is run with
`check=False` and its exit code is never examined; if the binary is absent
and the output matches a known OOM message on Linux/Darwin, `make` is re-run
once.  If the binary exists afterwards it (and the run libraries) is copied
into the cache entry and the version is read from `js.pc`; otherwise the
`.busted` marker is appended and `OSError` is raised. -/
def sm_compile (isLinuxOrDarwin : Bool) (run1 run2 : MakeRun) :
    SmCompileOutcome :=
  let retried := !run1.binaryExists && (isLinuxOrDarwin && run1.oomInOutput)
  if sm_binary_after isLinuxOrDarwin run1 run2 then
    { copiedToCache := true, bustedWritten := false, raisedOSError := false,
      retried }
  else
    { copiedToCache := false, bustedWritten := true, raisedOSError := true,
      retried }

/-- External actions `obtain_shell` can perform, in the order they appear in
`spidermonkey/hatch.py`.  `appendBusted` covers every write to the `.busted`
marker (`configure_binary`'s and `sm_compile`'s own writes as well as the
`obtain_shell` handler's). -/
inductive ExtAction
  | winPageheap
  | checkout
  | patch
  | patchRevert
  | autoconf
  | configure
  | compile
  | verify
  | writeMetadata
  | rmTreeCacheDir
  | rmTreeObjdir
  | unlinkBinary
  | appendBusted
  | mkdirCacheDir
deriving DecidableEq, Repr

/-- How far the external toolchain cooperates during one acquisition:
either each step's success is prescribed (`run`), or a `KeyboardInterrupt`
arrives after `k` actions of the try block (`interruptAfter`).
`checkoutOk`: `hg update` (raises `CalledProcessError` otherwise);
`configureOk`: the configure invocation (raises `CalledProcessError`);
`compileOk`: whether the compiled binary exists after `sm_compile`'s
possibly-retried `make` (raises `OSError` otherwise);
`verifyOk`: whether `verify_binary`'s checks all match (raises `ValueError`
otherwise). -/
inductive BuildOutcome
  | run (checkoutOk configureOk compileOk verifyOk : Bool)
  | interruptAfter (k : Nat)
deriving DecidableEq, Repr

/-- Terminal observation of `obtain_shell`: the return or the exception
type that escapes it. -/
inductive ObtainResult
  | cachedHit
  | built
  | errMozillaBuild
  | errLockDirMissing
  | errCachedFailure
  | errCalledProcess
  | errOSError
  | errValueError
  | errInterrupt
deriving DecidableEq, Repr

/-- The on-disk cache-entry facts `obtain_shell` branches on:
`shell.shell_cache_js_bin_path.is_file()`, the `.busted` marker's
existence, and `shell.shell_cache_dir.is_dir()`. -/
structure FsState where
  binaryExists : Bool
  bustedExists : Bool
  cacheDirExists : Bool
deriving DecidableEq, Repr

/-- Ambient facts `obtain_shell` consults: the MozillaBuild version check,
the lock-directory check, the platform, the two `exists_and_is_ancestor`
revset queries (the Windows `mozbuild` patch range and the non-Windows
autoconf range), and the `update_to_rev` argument. -/
structure ObtainEnv where
  isMozillaBuild3OrOlder : Bool
  lockDirIsDir : Bool
  isWindows : Bool
  hgAncestorPatch : Bool
  hgAncestorAutoconf : Bool
  updateToRev : Option String
deriving DecidableEq, Repr

/-- Python truthiness of the `update_to_rev` argument (`if update_to_rev:`):
present and nonempty. -/
def update_requested (e : ObtainEnv) : Bool :=
  match e.updateToRev with
  | none => false
  | some s => !(s == "")

/-- The try-block actions of a fully successful acquisition, in source
order: optional `hg update`, optional Windows `mozbuild` patch, then
`configure_js_shell_compile` (optional autoconf, configure, compile,
verify, metadata dump), the Windows pageheap check, and the patch revert. -/
def success_body (e : ObtainEnv) : List ExtAction :=
  (if update_requested e then [ExtAction.checkout] else [])
  ++ (if e.isWindows && e.hgAncestorPatch then [ExtAction.patch] else [])
  ++ (if !e.isWindows && e.hgAncestorAutoconf then [ExtAction.autoconf] else [])
  ++ [ExtAction.configure, ExtAction.compile, ExtAction.verify, ExtAction.writeMetadata]
  ++ (if e.isWindows then [ExtAction.winPageheap] else [])
  ++ (if e.isWindows && e.hgAncestorPatch then [ExtAction.patchRevert] else [])

/-- The `except (subprocess.CalledProcessError, OSError)` handler
(`spidermonkey/hatch.py` lines 676-697): revert the Windows patch, remove
the `objdir-js` subtree, unlink the copied binary if present, append the
exception text to the `.busted` marker, then re-raise. -/
def cpe_os_handler (e : ObtainEnv) (binaryNow : Bool) : List ExtAction :=
  (if e.isWindows && e.hgAncestorPatch then [ExtAction.patchRevert] else [])
  ++ [ExtAction.rmTreeObjdir]
  ++ (if binaryNow then [ExtAction.unlinkBinary] else [])
  ++ [ExtAction.appendBusted]

/-- The `except KeyboardInterrupt` handler (`spidermonkey/hatch.py` lines
665-675): revert the Windows patch, remove the whole cache entry, re-raise. -/
def ki_handler (e : ObtainEnv) : List ExtAction :=
  (if e.isWindows && e.hgAncestorPatch then [ExtAction.patchRevert] else [])
  ++ [ExtAction.rmTreeCacheDir]

/-- The pre-configure actions of the try block. -/
def pre_build_actions (e : ObtainEnv) : List ExtAction :=
  (if update_requested e then [ExtAction.checkout] else [])
  ++ (if e.isWindows && e.hgAncestorPatch then [ExtAction.patch] else [])
  ++ (if !e.isWindows && e.hgAncestorAutoconf then [ExtAction.autoconf] else [])

/-- The try block of `obtain_shell` plus its two exception handlers, entered
with a freshly created empty cache-entry directory.  Returns the terminal
observation, the external actions performed (in order), and the resulting
cache-entry state.  A `ValueError` from `verify_binary` matches neither
`except KeyboardInterrupt` nor `except (CalledProcessError, OSError)` and
escapes with no cleanup. -/
def try_build (e : ObtainEnv) (oc : BuildOutcome) :
    ObtainResult × List ExtAction × FsState :=
  match oc with
  | BuildOutcome.interruptAfter k =>
    (ObtainResult.errInterrupt, (success_body e).take k ++ ki_handler e,
      ⟨false, false, false⟩)
  | BuildOutcome.run checkoutOk configureOk compileOk verifyOk =>
    if update_requested e && !checkoutOk then
      (ObtainResult.errCalledProcess,
        ExtAction.checkout :: cpe_os_handler e false, ⟨false, true, true⟩)
    else if !configureOk then
      -- configure_binary writes the .busted marker in its own except block
      -- before re-raising CalledProcessError
      (ObtainResult.errCalledProcess,
        pre_build_actions e ++ [ExtAction.configure, ExtAction.appendBusted]
          ++ cpe_os_handler e false,
        ⟨false, true, true⟩)
    else if !compileOk then
      -- sm_compile writes the .busted marker itself, then raises OSError
      (ObtainResult.errOSError,
        pre_build_actions e ++ [ExtAction.configure, ExtAction.compile, ExtAction.appendBusted]
          ++ cpe_os_handler e false,
        ⟨false, true, true⟩)
    else if !verifyOk then
      -- sm_compile copied the binary; verify_binary's ValueError is uncaught
      (ObtainResult.errValueError,
        pre_build_actions e ++ [ExtAction.configure, ExtAction.compile, ExtAction.verify],
        ⟨true, false, true⟩)
    else
      (ObtainResult.built, success_body e, ⟨true, false, true⟩)

/-- `obtain_shell` (`spidermonkey/hatch.py` lines 583-697).  Dispatch, in
source order: the MozillaBuild guard, the lock-directory guard, the cache
hit (return, with only the Windows pageheap re-check), the cached `.busted`
failure (raise `OSError`), the purge of an interrupted entry, `mkdir`, then
the try block. -/
def obtain_shell (e : ObtainEnv) (fs : FsState) (oc : BuildOutcome) :
    ObtainResult × List ExtAction × FsState :=
  if e.isMozillaBuild3OrOlder then (ObtainResult.errMozillaBuild, [], fs)
  else if !e.lockDirIsDir then (ObtainResult.errLockDirMissing, [], fs)
  else if fs.binaryExists then
    (ObtainResult.cachedHit,
      if e.isWindows then [ExtAction.winPageheap] else [], fs)
  else if fs.bustedExists then (ObtainResult.errCachedFailure, [], fs)
  else
    let purge := if fs.cacheDirExists then [ExtAction.rmTreeCacheDir] else []
    let r := try_build e oc
    (r.1, purge ++ ExtAction.mkdirCacheDir :: r.2.1, r.2.2)

/-- `getattr` on the namespace produced by the `build_options.py` parser,
restricted to its boolean dests (`add_parser_opts`, lines 48-140, plus the
`enableRandom` dest of `--random`): returns the stored value for a defined
dest and `none` — an `AttributeError` — for any name the parser never
defines.  The two non-boolean dests (`repo_dir`, and `build_options_str`
attached by `parse_shell_opts`) are carried by the real namespace too but
are not among the names read below, and their presence cannot make a lookup
of a different name succeed. -/
def parser_dest_lookup (o : BuildOptions) (name : String) : Option Bool :=
  if name = "enableRandom" then some o.enableRandom
  else if name = "enable32" then some o.enable32
  else if name = "enableDbg" then some o.enableDbg
  else if name = "disableDbg" then some o.disableDbg
  else if name = "enableOpt" then some o.enableOpt
  else if name = "disableOpt" then some o.disableOpt
  else if name = "disableProfiling" then some o.disableProfiling
  else if name = "enableAddressSanitizer" then some o.enableAddressSanitizer
  else if name = "enableValgrind" then some o.enableValgrind
  else if name = "runWithVg" then some o.runWithVg
  else if name = "enableOomBreakpoint" then some o.enableOomBreakpoint
  else if name = "enableWithoutIntlApi" then some o.enableWithoutIntlApi
  else if name = "enableSimulatorArm32" then some o.enableSimulatorArm32
  else if name = "enableSimulatorArm64" then some o.enableSimulatorArm64
  else none

/-- Attribute access `build_opts.<name>` on the parsed namespace: the value,
or the `AttributeError` Python raises for an undefined attribute. -/
def getattr_ns (o : BuildOptions) (name : String) : Except String Bool :=
  match parser_dest_lookup o name with
  | some v => Except.ok v
  | none => Except.error ("AttributeError: " ++ name)

/-- The platform-independent flag-assembly section of the legacy
`configure_binary` (`compile_shell.py` lines 363-389), with each
`shell.build_opts.<attr>` read routed through namespace attribute lookup in
source order.  Line 376 reads `build_opts.enableMoreDeterministic`
unconditionally, before the configure process is launched. -/
def configure_binary_flag_section (o : BuildOptions) :
    Except String (List String) := do
  let enableDbgV ← getattr_ns o "enableDbg"
  let dbgCmds ←
    if enableDbgV then pure ["--enable-debug"]
    else do
      let disableDbgV ← getattr_ns o "disableDbg"
      pure (if disableDbgV then ["--disable-debug"] else [])
  let enableOptV ← getattr_ns o "enableOpt"
  let optCmds ←
    if enableOptV then do
      let vgV ← getattr_ns o "enableValgrind"
      pure (if vgV then ["--enable-optimize=-O1"] else ["--enable-optimize"])
    else do
      let disableOptV ← getattr_ns o "disableOpt"
      pure (if disableOptV then ["--disable-optimize"] else [])
  let profV ← getattr_ns o "disableProfiling"
  let mdV ← getattr_ns o "enableMoreDeterministic"
  let oomV ← getattr_ns o "enableOomBreakpoint"
  let intlV ← getattr_ns o "enableWithoutIntlApi"
  let asanV ← getattr_ns o "enableAddressSanitizer"
  let vgV2 ← getattr_ns o "enableValgrind"
  pure (dbgCmds ++ optCmds
    ++ (if profV then ["--disable-profiling"] else [])
    ++ (if mdV then ["--enable-more-deterministic"] else [])
    ++ (if oomV then ["--enable-oom-breakpoint"] else [])
    ++ (if intlV then ["--without-intl-api"] else [])
    ++ (if asanV then ["--enable-address-sanitizer", "--disable-jemalloc"]
        else [])
    ++ (if vgV2 then ["--enable-valgrind", "--disable-jemalloc"] else []))

/-- Attaching `build_options_str` and `enableRandom` does not change what the
validity predicate sees: `are_args_valid` never reads either attribute. -/
theorem are_args_valid_attach (cand : BuildOptions) (host : Host)
    (joined : String) :
    are_args_valid
      { cand with build_options_str := joined, enableRandom := true } host
    = are_args_valid cand host := rfl

/-- If the boolean component of `are_args_valid` is `true` then the whole
result is the final `(True, "")` branch: every other branch returns `False`. -/
theorem are_args_valid_eq_of_fst (args : BuildOptions) (host : Host)
    (h : (are_args_valid args host).1 = true) :
    are_args_valid args host = (true, "") := by
  unfold are_args_valid at h ⊢
  rcases hf : (validity_rules args host).find? (fun rule => rule.1) with _ | rule
  · rw [hf]
  · rw [hf] at h
    exact Bool.noConfusion h

/-- `charJoin` on a cons with nonempty tail puts one dash between the head
and the joined tail. -/
theorem charJoin_cons (s : String) (l : List String) (h : l ≠ []) :
    charJoin (s :: l) = s.data ++ '-' :: charJoin l := by
  cases l with
  | nil => exact absurd rfl h
  | cons t rest => rfl

/-- Splitting a join at a trailing two-element suffix. -/
theorem charJoin_append_pair (l : List String) (h : l ≠ []) (a b : String) :
    charJoin (l ++ [a, b]) = charJoin l ++ '-' :: (a.data ++ '-' :: b.data) := by
  induction l with
  | nil => exact absurd rfl h
  | cons s rest ih =>
    cases rest with
    | nil => rfl
    | cons t rest2 =>
      rw [List.cons_append, charJoin_cons s ((t :: rest2) ++ [a, b])
          (by simp), charJoin_cons s (t :: rest2) (by simp),
        ih (by simp)]
      simp

/-- Two dash-free chunks followed by a dash and arbitrary rests: equality of
the concatenations forces equality componentwise. -/
theorem dash_chunk_cancel :
    ∀ (t1 t2 r1 r2 : List Char), '-' ∉ t1 → '-' ∉ t2 →
      t1 ++ '-' :: r1 = t2 ++ '-' :: r2 → t1 = t2 ∧ r1 = r2 := by
  intro t1
  induction t1 with
  | nil =>
    intro t2 r1 r2 _ h2 h
    cases t2 with
    | nil => exact ⟨rfl, by injection h⟩
    | cons c t2' =>
      injection h with hc _
      exact absurd (hc ▸ List.mem_cons_self c t2') h2
  | cons c t1' ih =>
    intro t2 r1 r2 h1 h2 h
    cases t2 with
    | nil =>
      injection h with hc _
      exact absurd (hc ▸ List.mem_cons_self c t1') h1
    | cons c2 t2' =>
      injection h with hc htail
      have := ih t2' r1 r2 (fun hm => h1 (List.mem_cons_of_mem c hm))
        (fun hm => h2 (List.mem_cons_of_mem c2 hm)) htail
      exact ⟨by rw [hc, this.1], this.2⟩

/-- `"-".join` is unambiguous on lists of nonempty dash-free tokens. -/
theorem charJoin_inj :
    ∀ (l1 l2 : List String),
      (∀ t ∈ l1, t.data ≠ [] ∧ '-' ∉ t.data) →
      (∀ t ∈ l2, t.data ≠ [] ∧ '-' ∉ t.data) →
      charJoin l1 = charJoin l2 → l1 = l2 := by
  intro l1
  induction l1 with
  | nil =>
    intro l2 _ g2 h
    cases l2 with
    | nil => rfl
    | cons s2 r2 =>
      cases r2 with
      | nil => exact absurd h.symm (g2 s2 (by simp)).1
      | cons t2 r2' =>
        rw [charJoin_cons s2 (t2 :: r2') (by simp)] at h
        exact absurd (List.append_eq_nil.mp h.symm).1 (g2 s2 (by simp)).1
  | cons s1 r1 ih =>
    intro l2 g1 g2 h
    cases l2 with
    | nil =>
      cases r1 with
      | nil => exact absurd h (g1 s1 (by simp)).1
      | cons t1 r1' =>
        rw [charJoin_cons s1 (t1 :: r1') (by simp)] at h
        exact absurd (List.append_eq_nil.mp h).1 (g1 s1 (by simp)).1
    | cons s2 r2 =>
      cases r1 with
      | nil =>
        cases r2 with
        | nil =>
          have : s1 = s2 := by
            apply String.ext
            exact h
          rw [this]
        | cons t2 r2' =>
          rw [charJoin_cons s2 (t2 :: r2') (by simp)] at h
          have hmem : '-' ∈ s1.data := by
            rw [show charJoin [s1] = s1.data from rfl] at h
            rw [h]
            simp
          exact absurd hmem (g1 s1 (by simp)).2
      | cons t1 r1' =>
        cases r2 with
        | nil =>
          rw [charJoin_cons s1 (t1 :: r1') (by simp)] at h
          have hmem : '-' ∈ s2.data := by
            rw [show charJoin [s2] = s2.data from rfl] at h
            rw [← h]
            simp
          exact absurd hmem (g2 s2 (by simp)).2
        | cons t2 r2' =>
          rw [charJoin_cons s1 (t1 :: r1') (by simp),
            charJoin_cons s2 (t2 :: r2') (by simp)] at h
          obtain ⟨hs, hr⟩ := dash_chunk_cancel s1.data s2.data _ _
            (g1 s1 (by simp)).2 (g2 s2 (by simp)).2 h
          have hrest := ih (t2 :: r2')
            (fun t ht => g1 t (List.mem_cons_of_mem s1 ht))
            (fun t ht => g2 t (List.mem_cons_of_mem s2 ht)) hr
          rw [String.ext hs, hrest]

theorem decodeVar_varTokens :
    ∀ dbg dopt e32 dprof asan vg oom intl sim32 sim64 : Bool,
      decodeVar (varTokens dbg dopt e32 dprof asan vg oom intl sim32 sim64)
      = [dbg, dopt, e32, dprof, asan, vg, oom, intl, sim32, sim64] := by
  decide

theorem varTokens_ne_nil :
    ∀ dbg dopt e32 dprof asan vg oom intl sim32 sim64 : Bool,
      varTokens dbg dopt e32 dprof asan vg oom intl sim32 sim64 ≠ [] := by
  decide

theorem varTokens_good :
    ∀ dbg dopt e32 dprof asan vg oom intl sim32 sim64 : Bool,
      ∀ t ∈ varTokens dbg dopt e32 dprof asan vg oom intl sim32 sim64,
        t.data ≠ [] ∧ '-' ∉ t.data := by
  decide

/-- Equal shell-type strings force equal values of all ten flags rendered by
`compute_shell_type`, for any fixed host strings. -/
theorem shell_type_fields_eq (o1 o2 : BuildOptions) (system machine : String)
    (h : compute_shell_type o1 system machine
        = compute_shell_type o2 system machine) :
    o1.enableDbg = o2.enableDbg ∧ o1.disableOpt = o2.disableOpt
      ∧ o1.enable32 = o2.enable32 ∧ o1.disableProfiling = o2.disableProfiling
      ∧ o1.enableAddressSanitizer = o2.enableAddressSanitizer
      ∧ o1.enableValgrind = o2.enableValgrind
      ∧ o1.enableOomBreakpoint = o2.enableOomBreakpoint
      ∧ o1.enableWithoutIntlApi = o2.enableWithoutIntlApi
      ∧ o1.enableSimulatorArm32 = o2.enableSimulatorArm32
      ∧ o1.enableSimulatorArm64 = o2.enableSimulatorArm64 := by
  have hdata := congrArg String.data h
  simp only [compute_shell_type, dashJoin, List.cons_append, List.nil_append]
    at hdata
  set v1 := varTokens o1.enableDbg o1.disableOpt o1.enable32
    o1.disableProfiling o1.enableAddressSanitizer o1.enableValgrind
    o1.enableOomBreakpoint o1.enableWithoutIntlApi o1.enableSimulatorArm32
    o1.enableSimulatorArm64 with hv1
  set v2 := varTokens o2.enableDbg o2.disableOpt o2.enable32
    o2.disableProfiling o2.enableAddressSanitizer o2.enableValgrind
    o2.enableOomBreakpoint o2.enableWithoutIntlApi o2.enableSimulatorArm32
    o2.enableSimulatorArm64 with hv2
  have hne1 : v1 ≠ [] := by rw [hv1]; exact varTokens_ne_nil _ _ _ _ _ _ _ _ _ _
  have hne2 : v2 ≠ [] := by rw [hv2]; exact varTokens_ne_nil _ _ _ _ _ _ _ _ _ _
  rw [charJoin_cons "js" _ (by simp), charJoin_cons "js" _ (by simp),
    charJoin_append_pair v1 hne1, charJoin_append_pair v2 hne2] at hdata
  have hx := List.append_cancel_left hdata
  have hy := List.cons.inj hx
  have hmid := List.append_cancel_right hy.2
  have hveq : v1 = v2 := by
    refine charJoin_inj v1 v2 ?_ ?_ hmid
    · rw [hv1]; exact varTokens_good _ _ _ _ _ _ _ _ _ _
    · rw [hv2]; exact varTokens_good _ _ _ _ _ _ _ _ _ _
  have hdec := congrArg decodeVar hveq
  rw [hv1, hv2, decodeVar_varTokens, decodeVar_varTokens] at hdec
  have e1 := List.cons.inj hdec
  have e2 := List.cons.inj e1.2
  have e3 := List.cons.inj e2.2
  have e4 := List.cons.inj e3.2
  have e5 := List.cons.inj e4.2
  have e6 := List.cons.inj e5.2
  have e7 := List.cons.inj e6.2
  have e8 := List.cons.inj e7.2
  have e9 := List.cons.inj e8.2
  have e10 := List.cons.inj e9.2
  exact ⟨e1.1, e2.1, e3.1, e4.1, e5.1, e6.1, e7.1, e8.1, e9.1, e10.1⟩

/-- Claim C6: for the option set parsed from
`"--enable-debug --disable-optimize"` (64-bit, all other flags default),
revision `"abc123"`, on a Linux x86_64 host, `compute_shell_name` returns
exactly `"js-dbg-optDisabled-64-linux-x86_64-abc123"`. -/
theorem compute_shell_name_scenario_a :
    (parse_flag_tokens ["--enable-debug", "--disable-optimize"]).map
      (fun o => compute_shell_name o "Linux" "x86_64" "abc123")
    = some "js-dbg-optDisabled-64-linux-x86_64-abc123" := by
  decide

/-- Claim C7: `compute_shell_type` is injective on the ten rendered flag
fields for fixed host facts — two option sets differing in at least one of
them yield different strings. -/
theorem compute_shell_type_injective (o1 o2 : BuildOptions)
    (system machine : String)
    (h : o1.enableDbg ≠ o2.enableDbg ∨ o1.disableOpt ≠ o2.disableOpt
      ∨ o1.enable32 ≠ o2.enable32 ∨ o1.disableProfiling ≠ o2.disableProfiling
      ∨ o1.enableAddressSanitizer ≠ o2.enableAddressSanitizer
      ∨ o1.enableValgrind ≠ o2.enableValgrind
      ∨ o1.enableOomBreakpoint ≠ o2.enableOomBreakpoint
      ∨ o1.enableWithoutIntlApi ≠ o2.enableWithoutIntlApi
      ∨ o1.enableSimulatorArm32 ≠ o2.enableSimulatorArm32
      ∨ o1.enableSimulatorArm64 ≠ o2.enableSimulatorArm64) :
    compute_shell_type o1 system machine
      ≠ compute_shell_type o2 system machine := by
  intro heq
  obtain ⟨e1, e2, e3, e4, e5, e6, e7, e8, e9, e10⟩ :=
    shell_type_fields_eq o1 o2 system machine heq
  rcases h with h|h|h|h|h|h|h|h|h|h <;> exact h (by assumption)

theorem compute_shell_type_injective_witness :
    (({ enableDbg := true } : BuildOptions).enableDbg
        ≠ ({} : BuildOptions).enableDbg)
    ∧ compute_shell_type { enableDbg := true } "Linux" "x86_64"
        ≠ compute_shell_type {} "Linux" "x86_64" :=
  ⟨by decide,
    compute_shell_type_injective { enableDbg := true } {} "Linux" "x86_64"
      (Or.inl (by decide))⟩

/-- Claim C5: `sm_compile` succeeds exactly when the expected binary exists
on disk after the (possibly once-retried) `make`, independently of the make
exit code: with a non-zero exit code but an existing binary, the binary is
copied into the cache, no failure marker is written and no error is raised;
`OSError` is raised precisely when the binary is absent. -/
theorem sm_compile_success_criterion :
    (∀ (isLinuxOrDarwin : Bool) (run1 run2 : MakeRun),
      (sm_compile isLinuxOrDarwin run1 run2).raisedOSError = true
        ↔ sm_binary_after isLinuxOrDarwin run1 run2 = false)
    ∧ (∀ (isLinuxOrDarwin : Bool) (run1 run2 : MakeRun),
      run1.exitCode ≠ 0 →
      sm_binary_after isLinuxOrDarwin run1 run2 = true →
      sm_compile isLinuxOrDarwin run1 run2
        = { copiedToCache := true, bustedWritten := false,
            raisedOSError := false,
            retried := !run1.binaryExists
              && (isLinuxOrDarwin && run1.oomInOutput) }) := by
  constructor
  · intro p r1 r2
    unfold sm_compile
    rcases hb : sm_binary_after p r1 r2 with _ | _ <;> simp [hb]
  · intro p r1 r2 _ hb
    unfold sm_compile
    rw [if_pos hb]

theorem sm_compile_success_criterion_witness :
    ((sm_compile true ⟨2, true, false⟩ ⟨0, false, false⟩).raisedOSError = true
      ↔ sm_binary_after true ⟨2, true, false⟩ ⟨0, false, false⟩ = false)
    ∧ ((2 : Int) ≠ 0)
    ∧ sm_compile true ⟨2, true, false⟩ ⟨0, false, false⟩
        = { copiedToCache := true, bustedWritten := false,
            raisedOSError := false, retried := false } :=
  ⟨sm_compile_success_criterion.1 true ⟨2, true, false⟩ ⟨0, false, false⟩,
    by decide,
    sm_compile_success_criterion.2 true ⟨2, true, false⟩ ⟨0, false, false⟩
      (by decide) (by decide)⟩

/-- Claim C9: every option set returned by `gen_rnd_cfgs` satisfies the
validity predicate with `(True, "")`; invalid draws are discarded and
regeneration is retried. -/
theorem gen_rnd_cfgs_always_valid (host : Host)
    (draws : List (BuildOptions × String)) (o : BuildOptions)
    (h : gen_rnd_cfgs host draws = some o) :
    are_args_valid o host = (true, "") := by
  induction draws with
  | nil => exact Option.noConfusion h
  | cons d rest ih =>
    obtain ⟨cand, joined⟩ := d
    by_cases hv : (are_args_valid cand host).1 = true
    · rw [gen_rnd_cfgs, if_pos hv] at h
      have ho := Option.some.inj h
      rw [← ho, are_args_valid_attach]
      exact are_args_valid_eq_of_fst cand host hv
    · rw [gen_rnd_cfgs, if_neg hv] at h
      exact ih h

theorem gen_rnd_cfgs_always_valid_witness :
    gen_rnd_cfgs ⟨"Linux", "x86_64", "5.15.0-generic"⟩
        [({ enableValgrind := true }, "--enable-valgrind"), ({}, "")]
      = some { enableRandom := true }
    ∧ are_args_valid { enableRandom := true }
        ⟨"Linux", "x86_64", "5.15.0-generic"⟩ = (true, "") :=
  ⟨by decide,
    gen_rnd_cfgs_always_valid ⟨"Linux", "x86_64", "5.15.0-generic"⟩
      [({ enableValgrind := true }, "--enable-valgrind"), ({}, "")]
      { enableRandom := true } (by decide)⟩

/-- Claim C10: the parser in `build_options.py` defines no
`enableMoreDeterministic` dest, yet the legacy `configure_binary` in
`compile_shell.py` reads `build_opts.enableMoreDeterministic`
unconditionally, so for every parsed option set its flag-assembly section
raises `AttributeError` before the configure process is launched. -/
theorem legacy_configure_attribute_error (o : BuildOptions) :
    parser_dest_lookup o "enableMoreDeterministic" = none
    ∧ configure_binary_flag_section o
      = Except.error "AttributeError: enableMoreDeterministic" := by
  obtain ⟨e32, dbg, ddbg, eopt, dopt, dprof, asan, vg, rvg, oomb, intl,
    s32, s64, rnd, bstr⟩ := o
  refine ⟨rfl, ?_⟩
  cases dbg <;> cases eopt <;> rfl

/-- Claim C8: `are_args_valid` returns `(False, reason)` with a non-empty
reason whenever debug and no-debug are both set, whenever optimize and
no-optimize are both set, whenever no-optimize is set without debug, and
whenever a 32-bit build is requested on a Darwin host; the rules are checked
in that order, short-circuiting on the first violation (witnessed by the
exact reason string returned when the earlier rules do not fire). -/
theorem are_args_valid_exclusions :
    (∀ (a : BuildOptions) (host : Host),
      a.enableDbg = true → a.disableDbg = true →
      are_args_valid a host
        = (false, "Making a debug, non-debug build would be contradictory."))
    ∧ (∀ (a : BuildOptions) (host : Host),
      a.enableOpt = true → a.disableOpt = true →
      (are_args_valid a host).1 = false ∧ (are_args_valid a host).2 ≠ "")
    ∧ (∀ (a : BuildOptions) (host : Host),
      a.enableOpt = true → a.disableOpt = true →
      ¬(a.enableDbg = true ∧ a.disableDbg = true) →
      are_args_valid a host
        = (false,
          "Making an optimized, non-optimized build would be contradictory."))
    ∧ (∀ (a : BuildOptions) (host : Host),
      a.enableDbg = false → a.disableOpt = true →
      (are_args_valid a host).1 = false ∧ (are_args_valid a host).2 ≠ "")
    ∧ (∀ (a : BuildOptions) (host : Host),
      a.enableDbg = false → a.disableOpt = true → a.enableOpt = false →
      are_args_valid a host
        = (false,
          "Making a non-debug, non-optimized build would be kind of silly."))
    ∧ (∀ (a : BuildOptions) (host : Host),
      host.system = "Darwin" → a.enable32 = true →
      (are_args_valid a host).1 = false ∧ (are_args_valid a host).2 ≠ "")
    ∧ (∀ (a : BuildOptions) (host : Host),
      host.system = "Darwin" → a.enable32 = true → a.disableOpt = false →
      ¬(a.enableDbg = true ∧ a.disableDbg = true) →
      are_args_valid a host
        = (false, "We are no longer going to ship 32-bit Mac binaries.")) := by
  refine ⟨?_, ?_, ?_, ?_, ?_, ?_, ?_⟩
  · intro a host h1 h2
    simp [are_args_valid, validity_rules, h1, h2]
  · intro a host h1 h2
    cases hd1 : a.enableDbg <;> cases hd2 : a.disableDbg <;>
      simp [are_args_valid, validity_rules, h1, h2, hd1, hd2]
  · intro a host h1 h2 hnot
    cases hd1 : a.enableDbg <;> cases hd2 : a.disableDbg
    · simp [are_args_valid, validity_rules, h1, h2, hd1, hd2]
    · simp [are_args_valid, validity_rules, h1, h2, hd1, hd2]
    · simp [are_args_valid, validity_rules, h1, h2, hd1, hd2]
    · exact absurd ⟨hd1, hd2⟩ hnot
  · intro a host h1 h2
    cases heo : a.enableOpt <;>
      simp [are_args_valid, validity_rules, h1, h2, heo]
  · intro a host h1 h2 h3
    simp [are_args_valid, validity_rules, h1, h2, h3]
  · intro a host hs h32
    cases hd1 : a.enableDbg <;> cases hd2 : a.disableDbg <;>
      cases heo : a.enableOpt <;> cases hdo : a.disableOpt <;>
      simp [are_args_valid, validity_rules, hs, h32, hd1, hd2, heo, hdo]
  · intro a host hs h32 hdo hnot
    cases hd1 : a.enableDbg <;> cases hd2 : a.disableDbg
    · simp [are_args_valid, validity_rules, hs, h32, hdo, hd1, hd2]
    · simp [are_args_valid, validity_rules, hs, h32, hdo, hd1, hd2]
    · simp [are_args_valid, validity_rules, hs, h32, hdo, hd1, hd2]
    · exact absurd ⟨hd1, hd2⟩ hnot

theorem are_args_valid_exclusions_witness :
    are_args_valid { enableDbg := true, disableDbg := true }
        ⟨"Linux", "x86_64", "5.15.0"⟩
      = (false, "Making a debug, non-debug build would be contradictory.")
    ∧ ((are_args_valid { enableOpt := true, disableOpt := true }
        ⟨"Linux", "x86_64", "5.15.0"⟩).1 = false
      ∧ (are_args_valid { enableOpt := true, disableOpt := true }
        ⟨"Linux", "x86_64", "5.15.0"⟩).2 ≠ "")
    ∧ are_args_valid { enableOpt := true, disableOpt := true }
        ⟨"Linux", "x86_64", "5.15.0"⟩
      = (false,
        "Making an optimized, non-optimized build would be contradictory.")
    ∧ ((are_args_valid { disableOpt := true }
        ⟨"Linux", "x86_64", "5.15.0"⟩).1 = false
      ∧ (are_args_valid { disableOpt := true }
        ⟨"Linux", "x86_64", "5.15.0"⟩).2 ≠ "")
    ∧ are_args_valid { disableOpt := true } ⟨"Linux", "x86_64", "5.15.0"⟩
      = (false,
        "Making a non-debug, non-optimized build would be kind of silly.")
    ∧ ((are_args_valid { enable32 := true }
        ⟨"Darwin", "x86_64", "21.6.0"⟩).1 = false
      ∧ (are_args_valid { enable32 := true }
        ⟨"Darwin", "x86_64", "21.6.0"⟩).2 ≠ "")
    ∧ are_args_valid { enable32 := true } ⟨"Darwin", "x86_64", "21.6.0"⟩
      = (false, "We are no longer going to ship 32-bit Mac binaries.") :=
  ⟨are_args_valid_exclusions.1 _ _ rfl rfl,
    are_args_valid_exclusions.2.1 _ _ rfl rfl,
    are_args_valid_exclusions.2.2.1 _ _ rfl rfl (by decide),
    are_args_valid_exclusions.2.2.2.1 _ _ rfl rfl,
    are_args_valid_exclusions.2.2.2.2.1 _ _ rfl rfl rfl,
    are_args_valid_exclusions.2.2.2.2.2.1 _ _ rfl rfl,
    are_args_valid_exclusions.2.2.2.2.2.2 _ _ rfl rfl rfl (by decide)⟩

theorem success_body_count_compile (e : ObtainEnv) :
    (success_body e).count ExtAction.compile = 1 := by
  unfold success_body
  cases hu : update_requested e <;> cases hw : e.isWindows <;>
    cases hp : e.hgAncestorPatch <;> cases ha : e.hgAncestorAutoconf <;>
    simp [hu, hw, hp, ha]

theorem success_body_count_configure (e : ObtainEnv) :
    (success_body e).count ExtAction.configure = 1 := by
  unfold success_body
  cases hu : update_requested e <;> cases hw : e.isWindows <;>
    cases hp : e.hgAncestorPatch <;> cases ha : e.hgAncestorAutoconf <;>
    simp [hu, hw, hp, ha]

theorem configure_mem_success_body (e : ObtainEnv) :
    ExtAction.configure ∈ success_body e := by
  simp [success_body]

theorem compile_mem_success_body (e : ObtainEnv) :
    ExtAction.compile ∈ success_body e := by
  simp [success_body]

theorem pre_build_actions_no_cleanup (e : ObtainEnv) :
    ExtAction.unlinkBinary ∉ pre_build_actions e
    ∧ ExtAction.appendBusted ∉ pre_build_actions e
    ∧ ExtAction.rmTreeObjdir ∉ pre_build_actions e := by
  unfold pre_build_actions
  cases hu : update_requested e <;> cases hw : e.isWindows <;>
    cases hp : e.hgAncestorPatch <;> cases ha : e.hgAncestorAutoconf <;>
    simp [hu, hw, hp, ha]

theorem try_build_ne_cached_failure (e : ObtainEnv) (oc : BuildOutcome) :
    (try_build e oc).1 ≠ ObtainResult.errCachedFailure := by
  unfold try_build
  rcases oc with ⟨a, b, c, d⟩ | k
  · cases a <;> cases b <;> cases c <;> cases d <;>
      cases hu : update_requested e <;> simp [hu]
  · simp

/-- Under a clean dispatch (no guard error, no cached binary or marker) the
all-successful run builds: purge if the directory lingered, make the entry
directory, run the whole try body, and leave a binary and no marker. -/
theorem obtain_success_run_eq (e : ObtainEnv) (fs : FsState)
    (h1 : e.isMozillaBuild3OrOlder = false) (h2 : e.lockDirIsDir = true)
    (h3 : fs.binaryExists = false) (h4 : fs.bustedExists = false) :
    obtain_shell e fs (BuildOutcome.run true true true true)
      = (ObtainResult.built,
        (if fs.cacheDirExists then [ExtAction.rmTreeCacheDir] else [])
          ++ ExtAction.mkdirCacheDir :: success_body e,
        ⟨true, false, true⟩) := by
  unfold obtain_shell try_build
  simp [h1, h2, h3, h4]

/-- Claim C1: when the cache entry already holds the compiled binary,
`obtain_shell` returns the cache hit immediately — no checkout, configure,
compile, or verification action, cache state unchanged (only the Windows
pageheap re-check runs); consequently a successful acquisition followed by a
second acquisition of the same `(opts, revision)` performs the external
configure and compile exactly once, the second call being a cache hit. -/
theorem obtain_shell_cache_idempotence :
    (∀ (e : ObtainEnv) (fs : FsState) (oc : BuildOutcome),
      e.isMozillaBuild3OrOlder = false → e.lockDirIsDir = true →
      fs.binaryExists = true →
      obtain_shell e fs oc
        = (ObtainResult.cachedHit,
          if e.isWindows then [ExtAction.winPageheap] else [], fs)
      ∧ ExtAction.checkout ∉ (obtain_shell e fs oc).2.1
      ∧ ExtAction.configure ∉ (obtain_shell e fs oc).2.1
      ∧ ExtAction.compile ∉ (obtain_shell e fs oc).2.1
      ∧ ExtAction.verify ∉ (obtain_shell e fs oc).2.1)
    ∧ (∀ (e : ObtainEnv) (fs : FsState) (oc2 : BuildOutcome),
      e.isMozillaBuild3OrOlder = false → e.lockDirIsDir = true →
      fs.binaryExists = false → fs.bustedExists = false →
      (obtain_shell e fs (BuildOutcome.run true true true true)).1
          = ObtainResult.built
      ∧ (obtain_shell e
          (obtain_shell e fs (BuildOutcome.run true true true true)).2.2
          oc2).1 = ObtainResult.cachedHit
      ∧ ((obtain_shell e fs (BuildOutcome.run true true true true)).2.1
          ++ (obtain_shell e
            (obtain_shell e fs (BuildOutcome.run true true true true)).2.2
            oc2).2.1).count ExtAction.compile = 1
      ∧ ((obtain_shell e fs (BuildOutcome.run true true true true)).2.1
          ++ (obtain_shell e
            (obtain_shell e fs (BuildOutcome.run true true true true)).2.2
            oc2).2.1).count ExtAction.configure = 1) := by
  constructor
  · intro e fs oc h1 h2 h3
    have heq : obtain_shell e fs oc
        = (ObtainResult.cachedHit,
          if e.isWindows then [ExtAction.winPageheap] else [], fs) := by
      unfold obtain_shell
      simp [h1, h2, h3]
    refine ⟨heq, ?_, ?_, ?_, ?_⟩ <;>
      rw [heq] <;> cases hw : e.isWindows <;> simp
  · intro e fs oc2 h1 h2 h3 h4
    have r1eq := obtain_success_run_eq e fs h1 h2 h3 h4
    have hstate : (obtain_shell e fs
        (BuildOutcome.run true true true true)).2.2
        = (⟨true, false, true⟩ : FsState) := by
      rw [r1eq]
    have htrace1 : (obtain_shell e fs
        (BuildOutcome.run true true true true)).2.1
        = (if fs.cacheDirExists then [ExtAction.rmTreeCacheDir] else [])
          ++ ExtAction.mkdirCacheDir :: success_body e := by
      rw [r1eq]
    have r2eq : obtain_shell e (⟨true, false, true⟩ : FsState) oc2
        = (ObtainResult.cachedHit,
          if e.isWindows then [ExtAction.winPageheap] else [],
          (⟨true, false, true⟩ : FsState)) := by
      unfold obtain_shell
      simp [h1, h2]
    refine ⟨by rw [r1eq], by rw [hstate, r2eq], ?_, ?_⟩ <;>
      rw [List.count_append, htrace1, hstate, r2eq] <;>
      cases hw : e.isWindows <;> cases hc : fs.cacheDirExists <;>
      simp [hw, hc, List.count_cons, success_body_count_compile,
        success_body_count_configure]

theorem obtain_shell_cache_idempotence_witness :
    obtain_shell ⟨false, true, false, false, false, none⟩
        ⟨true, false, true⟩ (BuildOutcome.run true true true true)
      = (ObtainResult.cachedHit, [], ⟨true, false, true⟩)
    ∧ ((obtain_shell ⟨false, true, false, false, false, none⟩
          ⟨false, false, false⟩ (BuildOutcome.run true true true true)).2.1
        ++ (obtain_shell ⟨false, true, false, false, false, none⟩
          (obtain_shell ⟨false, true, false, false, false, none⟩
            ⟨false, false, false⟩ (BuildOutcome.run true true true true)).2.2
          (BuildOutcome.run true true true true)).2.1).count
        ExtAction.compile = 1 :=
  ⟨(obtain_shell_cache_idempotence.1 ⟨false, true, false, false, false, none⟩
      ⟨true, false, true⟩ (BuildOutcome.run true true true true)
      rfl rfl rfl).1,
    (obtain_shell_cache_idempotence.2 ⟨false, true, false, false, false, none⟩
      ⟨false, false, false⟩ (BuildOutcome.run true true true true)
      rfl rfl rfl rfl).2.2.1⟩

/-- Claim C3: a cache entry whose `.busted` failure marker exists while the
binary does not makes `obtain_shell` raise the cached-failure `OSError`
immediately — no external action at all, cache state unchanged. -/
theorem obtain_shell_cached_failure (e : ObtainEnv) (fs : FsState)
    (oc : BuildOutcome) (h1 : e.isMozillaBuild3OrOlder = false)
    (h2 : e.lockDirIsDir = true) (h3 : fs.binaryExists = false)
    (h4 : fs.bustedExists = true) :
    obtain_shell e fs oc = (ObtainResult.errCachedFailure, [], fs) := by
  unfold obtain_shell
  simp [h1, h2, h3, h4]

theorem obtain_shell_cached_failure_witness :
    obtain_shell ⟨false, true, false, false, false, none⟩ ⟨false, true, true⟩
        (BuildOutcome.run true true true true)
      = (ObtainResult.errCachedFailure, [], ⟨false, true, true⟩) :=
  obtain_shell_cached_failure ⟨false, true, false, false, false, none⟩
    ⟨false, true, true⟩ (BuildOutcome.run true true true true) rfl rfl rfl rfl

/-- Claim C4: a cache entry directory without binary and without failure
marker is purged and recreated, and the build proceeds — `obtain_shell` does
not fail at the dispatch step: the trace starts with the recursive removal
and the fresh `mkdir`, and the all-successful run reaches configure and
compile. -/
theorem obtain_shell_interrupted_state_recovery (e : ObtainEnv)
    (fs : FsState) (oc : BuildOutcome)
    (h1 : e.isMozillaBuild3OrOlder = false) (h2 : e.lockDirIsDir = true)
    (h3 : fs.binaryExists = false) (h4 : fs.bustedExists = false)
    (h5 : fs.cacheDirExists = true) :
    (obtain_shell e fs oc).1 ≠ ObtainResult.errCachedFailure
    ∧ (obtain_shell e fs oc).2.1.take 2
        = [ExtAction.rmTreeCacheDir, ExtAction.mkdirCacheDir]
    ∧ ExtAction.configure
        ∈ (obtain_shell e fs (BuildOutcome.run true true true true)).2.1
    ∧ ExtAction.compile
        ∈ (obtain_shell e fs (BuildOutcome.run true true true true)).2.1 := by
  have heq : obtain_shell e fs oc
      = ((try_build e oc).1,
        ExtAction.rmTreeCacheDir :: ExtAction.mkdirCacheDir
          :: (try_build e oc).2.1,
        (try_build e oc).2.2) := by
    unfold obtain_shell
    simp [h1, h2, h3, h4, h5]
  refine ⟨?_, ?_, ?_, ?_⟩
  · rw [heq]
    exact try_build_ne_cached_failure e oc
  · rw [heq]
    rfl
  · rw [obtain_success_run_eq e fs h1 h2 h3 h4, h5]
    simp [configure_mem_success_body]
  · rw [obtain_success_run_eq e fs h1 h2 h3 h4, h5]
    simp [compile_mem_success_body]

theorem obtain_shell_interrupted_state_recovery_witness :
    (obtain_shell ⟨false, true, false, false, false, none⟩
        ⟨false, false, true⟩ (BuildOutcome.run true true true true)).1
      ≠ ObtainResult.errCachedFailure
    ∧ (obtain_shell ⟨false, true, false, false, false, none⟩
        ⟨false, false, true⟩ (BuildOutcome.run true true true true)).2.1.take 2
      = [ExtAction.rmTreeCacheDir, ExtAction.mkdirCacheDir] :=
  ⟨(obtain_shell_interrupted_state_recovery
      ⟨false, true, false, false, false, none⟩ ⟨false, false, true⟩
      (BuildOutcome.run true true true true) rfl rfl rfl rfl rfl).1,
    (obtain_shell_interrupted_state_recovery
      ⟨false, true, false, false, false, none⟩ ⟨false, false, true⟩
      (BuildOutcome.run true true true true) rfl rfl rfl rfl rfl).2.1⟩

/-- Claim C2 counterexample: on a Linux host with a fresh cache entry, when
configure and compile succeed but `verify_binary` reports a mismatch
(raising `ValueError`), `obtain_shell` does NOT take the
cleanup-and-record path — the copied binary is not removed (it stays in the
entry), nothing is appended to the `.busted` marker, and the escaping
exception is the uncaught `ValueError`, because the handler catches only
`subprocess.CalledProcessError` and `OSError`. -/
theorem verify_mismatch_cleanup_counterexample :
    obtain_shell ⟨false, true, false, false, false, none⟩
        ⟨false, false, false⟩ (BuildOutcome.run true true true false)
      = (ObtainResult.errValueError,
        [ExtAction.mkdirCacheDir, ExtAction.configure, ExtAction.compile,
          ExtAction.verify],
        ⟨true, false, true⟩)
    ∧ ExtAction.unlinkBinary
        ∉ (obtain_shell ⟨false, true, false, false, false, none⟩
          ⟨false, false, false⟩ (BuildOutcome.run true true true false)).2.1
    ∧ ExtAction.appendBusted
        ∉ (obtain_shell ⟨false, true, false, false, false, none⟩
          ⟨false, false, false⟩ (BuildOutcome.run true true true false)).2.1
    ∧ (obtain_shell ⟨false, true, false, false, false, none⟩
        ⟨false, false, false⟩
        (BuildOutcome.run true true true false)).2.2.binaryExists = true
    ∧ (obtain_shell ⟨false, true, false, false, false, none⟩
        ⟨false, false, false⟩
        (BuildOutcome.run true true true false)).2.2.bustedExists = false := by
  decide

/-- Claim C2 (amended): a `VerificationMismatch` (`verify_binary`'s
`ValueError`) after a successful compile does NOT take the
cleanup-and-record path of an external-tool failure: `obtain_shell`'s
handler catches only `CalledProcessError` and `OSError`, so the
`ValueError` escapes with the copied binary left in the cache entry, no
objdir purge, no binary unlink, and no `.busted` append — whereas a compile
failure (`OSError`) does take that path and leaves the `.busted` marker. -/
theorem verify_mismatch_not_recorded (e : ObtainEnv) (fs : FsState)
    (h1 : e.isMozillaBuild3OrOlder = false) (h2 : e.lockDirIsDir = true)
    (h3 : fs.binaryExists = false) (h4 : fs.bustedExists = false) :
    (obtain_shell e fs (BuildOutcome.run true true true false)).1
        = ObtainResult.errValueError
    ∧ ExtAction.unlinkBinary
        ∉ (obtain_shell e fs (BuildOutcome.run true true true false)).2.1
    ∧ ExtAction.appendBusted
        ∉ (obtain_shell e fs (BuildOutcome.run true true true false)).2.1
    ∧ ExtAction.rmTreeObjdir
        ∉ (obtain_shell e fs (BuildOutcome.run true true true false)).2.1
    ∧ (obtain_shell e fs
        (BuildOutcome.run true true true false)).2.2.binaryExists = true
    ∧ (obtain_shell e fs
        (BuildOutcome.run true true true false)).2.2.bustedExists = false
    ∧ (obtain_shell e fs (BuildOutcome.run true true false true)).1
        = ObtainResult.errOSError
    ∧ ExtAction.appendBusted
        ∈ (obtain_shell e fs (BuildOutcome.run true true false true)).2.1
    ∧ (obtain_shell e fs
        (BuildOutcome.run true true false true)).2.2.bustedExists = true := by
  have hveq : obtain_shell e fs (BuildOutcome.run true true true false)
      = (ObtainResult.errValueError,
        (if fs.cacheDirExists then [ExtAction.rmTreeCacheDir] else [])
          ++ ExtAction.mkdirCacheDir :: (pre_build_actions e
            ++ [ExtAction.configure, ExtAction.compile, ExtAction.verify]),
        ⟨true, false, true⟩) := by
    unfold obtain_shell try_build
    simp [h1, h2, h3, h4]
  have hceq : obtain_shell e fs (BuildOutcome.run true true false true)
      = (ObtainResult.errOSError,
        (if fs.cacheDirExists then [ExtAction.rmTreeCacheDir] else [])
          ++ ExtAction.mkdirCacheDir :: (pre_build_actions e
            ++ [ExtAction.configure, ExtAction.compile,
              ExtAction.appendBusted] ++ cpe_os_handler e false),
        ⟨false, true, true⟩) := by
    unfold obtain_shell try_build
    simp [h1, h2, h3, h4]
  obtain ⟨hnu, hnb, hno⟩ := pre_build_actions_no_cleanup e
  refine ⟨by rw [hveq], ?_, ?_, ?_, by rw [hveq], by rw [hveq],
    by rw [hceq], ?_, by rw [hceq]⟩
  · rw [hveq]
    cases hc : fs.cacheDirExists <;> simp [hc, hnu]
  · rw [hveq]
    cases hc : fs.cacheDirExists <;> simp [hc, hnb]
  · rw [hveq]
    cases hc : fs.cacheDirExists <;> simp [hc, hno]
  · rw [hceq]
    cases hc : fs.cacheDirExists <;> simp [hc]

theorem verify_mismatch_not_recorded_witness :
    (obtain_shell ⟨false, true, false, false, false, none⟩
        ⟨false, false, false⟩ (BuildOutcome.run true true true false)).1
      = ObtainResult.errValueError
    ∧ ExtAction.appendBusted
      ∉ (obtain_shell ⟨false, true, false, false, false, none⟩
        ⟨false, false, false⟩ (BuildOutcome.run true true true false)).2.1
    ∧ (obtain_shell ⟨false, true, false, false, false, none⟩
        ⟨false, false, false⟩
        (BuildOutcome.run true true false true)).2.2.bustedExists = true :=
  ⟨(verify_mismatch_not_recorded ⟨false, true, false, false, false, none⟩
      ⟨false, false, false⟩ rfl rfl rfl rfl).1,
    (verify_mismatch_not_recorded ⟨false, true, false, false, false, none⟩
      ⟨false, false, false⟩ rfl rfl rfl rfl).2.2.1,
    (verify_mismatch_not_recorded ⟨false, true, false, false, false, none⟩
      ⟨false, false, false⟩ rfl rfl rfl rfl).2.2.2.2.2.2.2.2⟩
